import Mathlib

/-!
Verification development for the ParcelX server (nomayen31/Parcelx-server).

The repository contains two near-duplicate revisions of the same Express
server: src/server.js and src/unnamed/part_000.  Both expose the payment
confirmation flow POST /payments/confirm; the revision in
src/unnamed/part_000 additionally performs the optional amount/currency
sanity checks and the matchedCount = 0 (parcel not found) check, while the
revision in src/server.js omits both.  We embed both handlers:
confirmP0 models the handler of src/unnamed/part_000 (lines 149-246) and
confirmSJ models the handler of src/server.js (lines 184-251).

MongoDB documents are modelled as Lean structures, the two collections as
lists in natural (insertion) order; updateOne updates the first matching
document, findOne returns the first matching document, and updateOne with
upsert on the payments collection updates the first document with the given
paymentIntentId or appends a fresh document.  The Stripe gateway is a
function from payment-intent id to a response that either throws (modelled
as GatewayResp.threw, landing in the handler's catch block, HTTP 500) or
returns a possibly-null payment intent.  Clock reads (new Date()) are
modelled by an explicit now : Nat parameter.
-/

/-- JavaScript truthiness of an optional string request field: undefined /
null (none) and the empty string are falsy. -/
def jsFalsy : Option String → Bool
  | none => true
  | some s => s == ""

/-- JavaScript expression x || y for an optional string x: keeps x when it
is truthy, otherwise falls through to y. -/
def jsOrS : Option String → Option String → Option String
  | none, y => y
  | some s, y => if s == "" then y else some s

/-- JavaScript expression x || d for an optional string x and a string
default d. -/
def jsOrD : Option String → String → String
  | none, d => d
  | some s, d => if s == "" then d else s

/-- Coerces a JS value to null unless truthy, as in payer.name || null. -/
def strOrNone (o : Option String) : Option String :=
  jsOrS o none

/-- Hexadecimal digit characters accepted by the MongoDB driver's
ObjectId validity check. -/
def isHexChar (c : Char) : Bool :=
  c.isDigit || (97 ≤ c.toNat && c.toNat ≤ 102) || (65 ≤ c.toNat && c.toNat ≤ 70)

/-- ObjectId.isValid for string arguments: a 12-character string (taken as
12 raw bytes) or a 24-character hexadecimal string. -/
def isValidObjectId (s : String) : Bool :=
  s.length == 12 || (s.length == 24 && s.toList.all isHexChar)

/-- Character-wise lower-casing, the model of JS String.toLowerCase for
the ASCII currency codes and hex digits this server handles. -/
def strToLower (s : String) : String :=
  String.mk (s.toList.map Char.toLower)

/-- Lower-case hexadecimal digit of a value below 16. -/
def hexDigit (n : Nat) : Char :=
  if n < 10 then Char.ofNat (48 + n) else Char.ofNat (87 + n)

/-- Two-digit hexadecimal rendering of one byte. -/
def byteHex (n : Nat) : String :=
  String.mk [hexDigit (n / 16 % 16), hexDigit (n % 16)]

/-- Canonical 24-character lower-case hex representation of the ObjectId
built by new ObjectId(s): a 24-hex string is normalised to lower case, a
12-character string contributes its character codes as 12 bytes. -/
def mkOid (s : String) : String :=
  if s.length == 24 then strToLower s
  else String.join (s.toList.map (fun c => byteHex (c.toNat % 256)))

/-- Value stored in a document's _id field: either a canonical ObjectId
(identified by its 24-char lower-case hex) or a plain string.  An ObjectId
never compares equal to a string, as in MongoDB. -/
inductive MongoId
  | oid (hex : String)
  | str (s : String)
deriving DecidableEq, Repr

/-- Parcel document of the parcels collection. -/
structure Parcel where
  _id : MongoId
  paymentStatus : String
  createdByEmail : Option String
  createdAtReadable : String
  createdAt : Nat
  updatedAt : Nat
  otherFields : List (String × String)
deriving DecidableEq, Repr

/-- Payment ledger document of the payments collection.  The first seven
fields are the $setOnInsert fields of the confirm handlers (country and
postalCode are written only by the src/unnamed/part_000 revision), the last
three are the $set fields. -/
structure LedgerEntry where
  paymentIntentId : String
  parcelId : MongoId
  payerName : Option String
  payerEmail : Option String
  country : Option String
  postalCode : Option String
  createdAt : Nat
  status : String
  amount : Int
  currency : String
deriving DecidableEq, Repr

/-- Document passed as $setOnInsert in the payments upsert. -/
structure SOIDoc where
  paymentIntentId : String
  parcelId : MongoId
  payerName : Option String
  payerEmail : Option String
  country : Option String
  postalCode : Option String
  createdAt : Nat
deriving DecidableEq, Repr

/-- Document passed as $set in the payments upsert. -/
structure SetDoc where
  status : String
  amount : Int
  currency : String
deriving DecidableEq, Repr

/-- Ledger document created when the upsert inserts: MongoDB applies both
$setOnInsert and $set to the fresh document. -/
def mkEntry (s : SOIDoc) (d : SetDoc) : LedgerEntry :=
  { paymentIntentId := s.paymentIntentId
    parcelId := s.parcelId
    payerName := s.payerName
    payerEmail := s.payerEmail
    country := s.country
    postalCode := s.postalCode
    createdAt := s.createdAt
    status := d.status
    amount := d.amount
    currency := d.currency }

/-- Effect of $set on an existing ledger document: only the three mutable
fields are replaced. -/
def applySet (e : LedgerEntry) (d : SetDoc) : LedgerEntry :=
  { e with status := d.status, amount := d.amount, currency := d.currency }

/-- Tracking log document (src/server.js lines 294-336); it never touches
the parcels or payments collections. -/
structure TrackingLog where
  tracking_id : Option String
  parcel_id : Option MongoId
  status : Option String
  message : Option String
  time : Nat
  updated_by : String
deriving DecidableEq, Repr

/-- Full database state: the three collections, each in natural order. -/
structure DB where
  parcels : List Parcel
  payments : List LedgerEntry
  tracking : List TrackingLog
deriving DecidableEq, Repr

/-- Metadata attached to a Stripe payment intent at creation. -/
structure PIMetadata where
  parcelId : Option String
  payerEmail : Option String
deriving DecidableEq, Repr

/-- Payment intent as returned by stripe.paymentIntents.retrieve. -/
structure PaymentIntent where
  id : String
  status : String
  amount : Int
  currency : String
  metadata : PIMetadata
deriving DecidableEq, Repr

/-- Result of one call to stripe.paymentIntents.retrieve: the call either
throws (network failure, unknown id, ...), which the handlers turn into an
HTTP 500 in their catch block, or returns a possibly-null payment intent. -/
inductive GatewayResp
  | threw (msg : String)
  | retrieved (pi : Option PaymentIntent)

/-- External payment gateway: the authoritative view of payment intents. -/
def Gateway : Type := String → GatewayResp

/-- Payer object of the confirm request body. -/
structure Payer where
  name : Option String := none
  email : Option String := none
  country : Option String := none
  postal_code : Option String := none
deriving DecidableEq, Repr

/-- Body of POST /payments/confirm.  currency has the destructuring
default "usd" applied when absent (none). -/
structure ConfirmBody where
  parcelId : Option String
  paymentIntentId : Option String
  amountInCents : Option Int := none
  currency : Option String := none
  payer : Payer := {}
deriving DecidableEq, Repr

/-- Effective currency after destructuring: const currency = "usd" applies
only when the field is absent. -/
def effCurrency : Option String → String
  | none => "usd"
  | some s => s

/-- Guard of the optional amount sanity check in src/unnamed/part_000
line 173: if (amountInCents and Number(amountInCents) !== Number(pi.amount)).
A supplied 0 is falsy, so it bypasses the comparison. -/
def amountMismatch (a : Option Int) (piAmount : Int) : Bool :=
  match a with
  | none => false
  | some v => v != 0 && v != piAmount

/-- Guard of the optional currency sanity check in src/unnamed/part_000
line 176: if (currency and currency.toLowerCase() !== pi.currency). -/
def currencyMismatch (c : Option String) (piCurrency : String) : Bool :=
  let cur := effCurrency c
  cur != "" && strToLower cur != piCurrency

/-- HTTP response of the confirm handlers. -/
structure Resp where
  status : Nat
  success : Bool
  message : String
  data : Option Parcel
deriving DecidableEq, Repr

/-- Error response helper: res.status(s).json with success false. -/
def mkErr (s : Nat) (m : String) : Resp :=
  { status := s, success := false, message := m, data := none }

/-- Mutating store operations, recorded in the order the handler issues
them. -/
inductive Effect
  | parcelUpdate
  | ledgerUpsert
deriving DecidableEq, Repr

/-- Outcome of one confirm request: the HTTP response, the database state
after the request, and the trace of mutating store operations issued. -/
structure Outcome where
  resp : Resp
  db : DB
  trace : List Effect
deriving Repr

/-- Two-clause OR predicate or single-clause predicate on _id, as built by
the confirm handlers. -/
inductive ParcelFilter
  | orF (clauses : List MongoId)
  | single (clause : MongoId)
deriving DecidableEq, Repr

/-- List orFilter of the handlers: a canonical-id clause when the supplied
id is a valid ObjectId, always followed by the literal-string clause. -/
def orFilterList (pid : String) : List MongoId :=
  (if isValidObjectId pid then [MongoId.oid (mkOid pid)] else []) ++ [MongoId.str pid]

/-- Identifier Resolver: orFilter.length > 1 ? OR of the clauses :
the single clause. -/
def parcelFilterOf (pid : String) : ParcelFilter :=
  match orFilterList pid with
  | [c] => ParcelFilter.single c
  | l => ParcelFilter.orF l

/-- Satisfaction of a parcel filter by a stored _id. -/
def filterMatches (f : ParcelFilter) (i : MongoId) : Bool :=
  match f with
  | ParcelFilter.single c => i == c
  | ParcelFilter.orF l => l.any (fun c => i == c)

/-- Effect of the $set document of the parcel update: paymentStatus "Paid"
and a refreshed updatedAt. -/
def markPaid (p : Parcel) (now : Nat) : Parcel :=
  { p with paymentStatus := "Paid", updatedAt := now }

/-- updateOne on the parcels collection: updates the first matching
document and reports matchedCount (0 or 1). -/
def updateFirstMatch : List Parcel → ParcelFilter → Nat → Nat × List Parcel
  | [], _, _ => (0, [])
  | p :: ps, f, now =>
    if filterMatches f p._id then (1, markPaid p now :: ps)
    else
      let r := updateFirstMatch ps f now
      (r.1, p :: r.2)

/-- findOne on the parcels collection by exact _id. -/
def findOneId (l : List Parcel) (i : MongoId) : Option Parcel :=
  l.find? (fun p => p._id == i)

/-- findOne on the parcels collection by filter. -/
def findOneFilter (l : List Parcel) (f : ParcelFilter) : Option Parcel :=
  l.find? (fun p => filterMatches f p._id)

/-- updateOne with upsert on the payments collection, keyed by
paymentIntentId: applies the $set document to the first document holding
the key, or appends the merged $setOnInsert/$set document. -/
def upsertLedger : List LedgerEntry → String → LedgerEntry → SetDoc → List LedgerEntry
  | [], _, ins, _ => [ins]
  | e :: es, key, ins, sd =>
    if e.paymentIntentId == key then applySet e sd :: es
    else e :: upsertLedger es key ins sd

/-- setOnInsertDoc built by the src/unnamed/part_000 handler (lines
203-211), including country and postalCode. -/
def soiDocP0 (b : ConfirmBody) (pid : String) (pi : PaymentIntent) (now : Nat) : SOIDoc :=
  { paymentIntentId := pi.id
    parcelId := if isValidObjectId pid then MongoId.oid (mkOid pid) else MongoId.str pid
    payerName := strOrNone b.payer.name
    payerEmail := jsOrS b.payer.email (strOrNone pi.metadata.payerEmail)
    country := strOrNone b.payer.country
    postalCode := strOrNone b.payer.postal_code
    createdAt := now }

/-- setOnInsertDoc built by the src/server.js handler (lines 219-227),
without country/postalCode. -/
def soiDocSJ (b : ConfirmBody) (pid : String) (pi : PaymentIntent) (now : Nat) : SOIDoc :=
  { paymentIntentId := pi.id
    parcelId := if isValidObjectId pid then MongoId.oid (mkOid pid) else MongoId.str pid
    payerName := strOrNone b.payer.name
    payerEmail := jsOrS b.payer.email (strOrNone pi.metadata.payerEmail)
    country := none
    postalCode := none
    createdAt := now }

/-- setDoc shared by both handlers: the mutable fields, re-derived from the
gateway state. -/
def setDocOf (pi : PaymentIntent) : SetDoc :=
  { status := pi.status, amount := pi.amount, currency := pi.currency }

/-- Validation phase of the src/unnamed/part_000 confirm handler (lines
159-178): the missing-field checks, the gateway verification, and the
optional amount/currency sanity checks, each returning early with an error
response.  A gateway throw lands in the catch block: HTTP 500 with the
error message. -/
def confirmChecksP0 (gw : Gateway) (b : ConfirmBody) : Except Resp PaymentIntent :=
  if jsFalsy b.parcelId then Except.error (mkErr 400 "parcelId is required")
  else if jsFalsy b.paymentIntentId then Except.error (mkErr 400 "paymentIntentId is required")
  else
    match gw (b.paymentIntentId.getD "") with
    | GatewayResp.threw m => Except.error (mkErr 500 m)
    | GatewayResp.retrieved none => Except.error (mkErr 400 "PaymentIntent not succeeded")
    | GatewayResp.retrieved (some pi) =>
      if pi.status ≠ "succeeded" then Except.error (mkErr 400 "PaymentIntent not succeeded")
      else if amountMismatch b.amountInCents pi.amount then Except.error (mkErr 400 "Amount mismatch")
      else if currencyMismatch b.currency pi.currency then Except.error (mkErr 400 "Currency mismatch")
      else Except.ok pi

/-- Mutation phase of the src/unnamed/part_000 confirm handler (lines
180-241): parcel update by the resolver filter, matchedCount = 0 check
(HTTP 404), payments upsert, and re-fetch of the parcel by a single-clause
lookup. -/
def confirmMutateP0 (db : DB) (b : ConfirmBody) (pi : PaymentIntent) (now : Nat) : Outcome :=
  let pid := b.parcelId.getD ""
  let filter := parcelFilterOf pid
  let r := updateFirstMatch db.parcels filter now
  if r.1 == 0 then
    { resp := mkErr 404 ("Parcel not found for id " ++ pid ++ " (check if _id is string vs ObjectId)")
      db := { db with parcels := r.2 }
      trace := [Effect.parcelUpdate] }
  else
    let sd := setDocOf pi
    let payments2 := upsertLedger db.payments pi.id (mkEntry (soiDocP0 b pid pi now) sd) sd
    let updatedParcel :=
      if isValidObjectId pid then findOneId r.2 (MongoId.oid (mkOid pid))
      else findOneId r.2 (MongoId.str pid)
    { resp := { status := 200, success := true
                message := "Payment recorded and parcel marked Paid"
                data := updatedParcel }
      db := { db with parcels := r.2, payments := payments2 }
      trace := [Effect.parcelUpdate, Effect.ledgerUpsert] }

/-- POST /payments/confirm of src/unnamed/part_000 (lines 149-246). -/
def confirmP0 (gw : Gateway) (db : DB) (b : ConfirmBody) (now : Nat) : Outcome :=
  match confirmChecksP0 gw b with
  | Except.error r => { resp := r, db := db, trace := [] }
  | Except.ok pi => confirmMutateP0 db b pi now

/-- Validation phase of the src/server.js confirm handler (lines 194-206):
a combined missing-field check and the gateway verification; no
amount/currency sanity checks. -/
def confirmChecksSJ (gw : Gateway) (b : ConfirmBody) : Except Resp PaymentIntent :=
  if jsFalsy b.parcelId || jsFalsy b.paymentIntentId then
    Except.error (mkErr 400 "parcelId and paymentIntentId are required")
  else
    match gw (b.paymentIntentId.getD "") with
    | GatewayResp.threw m => Except.error (mkErr 500 m)
    | GatewayResp.retrieved none => Except.error (mkErr 400 "PaymentIntent not succeeded")
    | GatewayResp.retrieved (some pi) =>
      if pi.status ≠ "succeeded" then Except.error (mkErr 400 "PaymentIntent not succeeded")
      else Except.ok pi

/-- Mutation phase of the src/server.js confirm handler (lines 208-246):
parcel update by the resolver filter (the matchedCount is only logged,
never checked), payments upsert, and re-fetch of the parcel by the same
filter. -/
def confirmMutateSJ (db : DB) (b : ConfirmBody) (pi : PaymentIntent) (now : Nat) : Outcome :=
  let pid := b.parcelId.getD ""
  let filter := parcelFilterOf pid
  let r := updateFirstMatch db.parcels filter now
  let sd := setDocOf pi
  let payments2 := upsertLedger db.payments pi.id (mkEntry (soiDocSJ b pid pi now) sd) sd
  let updatedParcel := findOneFilter r.2 filter
  { resp := { status := 200, success := true
              message := "Payment recorded and parcel marked Paid"
              data := updatedParcel }
    db := { db with parcels := r.2, payments := payments2 }
    trace := [Effect.parcelUpdate, Effect.ledgerUpsert] }

/-- POST /payments/confirm of src/server.js (lines 184-251). -/
def confirmSJ (gw : Gateway) (db : DB) (b : ConfirmBody) (now : Nat) : Outcome :=
  match confirmChecksSJ gw b with
  | Except.error r => { resp := r, db := db, trace := [] }
  | Except.ok pi => confirmMutateSJ db b pi now

/-- Body of POST /parcels: caller-supplied fields, with the fields the
handler treats specially made explicit.  The handler spreads req.body and
then overrides paymentStatus with req.body.paymentStatus || "Unpaid" and
createdAtReadable with req.body.createdAtReadable || new Date().toISOString()
(src/server.js lines 78-106). -/
structure ParcelBody where
  paymentStatus : Option String := none
  createdByEmail : Option String := none
  createdAtReadable : Option String := none
  otherFields : List (String × String) := []
deriving DecidableEq, Repr

/-- Parcel document inserted by POST /parcels: newId is the _id assigned
by the store at insertion. -/
def mkNewParcel (newId : MongoId) (b : ParcelBody) (now : Nat) : Parcel :=
  { _id := newId
    paymentStatus := jsOrD b.paymentStatus "Unpaid"
    createdByEmail := b.createdByEmail
    createdAtReadable := jsOrD b.createdAtReadable (toString now)
    createdAt := now
    updatedAt := now
    otherFields := b.otherFields }

/-- Removes the first parcel with the given _id, as deleteOne does. -/
def removeFirstId : List Parcel → MongoId → List Parcel
  | [], _ => []
  | p :: ps, i => if p._id == i then ps else p :: removeFirstId ps i

/-- DELETE /parcels/:id (src/server.js lines 108-133): rejects invalid
ObjectId strings without touching the store, otherwise deletes the first
document with that canonical _id. -/
def deleteParcelOp (db : DB) (id : String) : DB :=
  if isValidObjectId id then
    { db with parcels := removeFirstId db.parcels (MongoId.oid (mkOid id)) }
  else db

/-- POST /tracking (src/server.js lines 294-336): requires tracking_id or
parcel_id, then appends a log document; the parcels and payments
collections are untouched either way. -/
def addTrackingOp (db : DB) (log : TrackingLog) : DB :=
  if jsFalsy log.tracking_id && log.parcel_id == none then db
  else { db with tracking := db.tracking ++ [log] }

/-- Mutating operations of the system.  The listing routes (GET /parcels,
GET /parcels/:id, GET /payments, GET /tracking/:trackingId, GET /) are
read-only and POST /create-payment-intent mutates only gateway-side state,
so none of them appear here. -/
inductive Op
  | createParcel (newId : MongoId) (body : ParcelBody) (now : Nat)
  | deleteParcel (id : String)
  | confirm (body : ConfirmBody) (now : Nat)
  | addTracking (log : TrackingLog)

/-- One step of the system on the database state.  insertOne assigns a
fresh _id; an _id collision violates the unique index and the insert fails
with no state change.  confirm is the src/server.js handler. -/
def stepOp (gw : Gateway) (db : DB) : Op → DB
  | Op.createParcel newId b now =>
    if db.parcels.any (fun p => p._id == newId) then db
    else { db with parcels := db.parcels ++ [mkNewParcel newId b now] }
  | Op.deleteParcel id => deleteParcelOp db id
  | Op.confirm b now => (confirmSJ gw db b now).db
  | Op.addTracking log => addTrackingOp db log

/-- Every ledger upsert in an effect trace is preceded by an already
completed parcel update; the flag records whether a parcel update has been
seen so far. -/
def ledgerAfterParcel : List Effect → Bool → Bool
  | [], _ => true
  | Effect.parcelUpdate :: rest, _ => ledgerAfterParcel rest true
  | Effect.ledgerUpsert :: rest, seen => seen && ledgerAfterParcel rest seen

/-- Number of ledger documents carrying a given payment-intent id. -/
def countKey (l : List LedgerEntry) (key : String) : Nat :=
  (l.filter (fun e => e.paymentIntentId == key)).length

/-- First-occurrence decomposition of a list by a Boolean predicate:
either no element satisfies it, or the list splits around the first
element that does. -/
theorem first_occ_decomp {α : Type} (l : List α) (f : α → Bool) :
    (∀ x ∈ l, f x = false) ∨
      ∃ l1 x l2, l = l1 ++ x :: l2 ∧ (∀ y ∈ l1, f y = false) ∧ f x = true := by
  induction l with
  | nil => exact Or.inl (by simp)
  | cons a t ih =>
    by_cases ha : f a = true
    · exact Or.inr ⟨[], a, t, by simp, by simp, ha⟩
    · have ha' : f a = false := by
        cases h : f a with
        | true => exact absurd h ha
        | false => rfl
      rcases ih with h | ⟨l1, x, l2, hdec, hl1, hx⟩
      · refine Or.inl ?_
        intro y hy
        rcases List.mem_cons.mp hy with rfl | hy'
        · exact ha'
        · exact h y hy'
      · refine Or.inr ⟨a :: l1, x, l2, by simp [hdec], ?_, hx⟩
        intro y hy
        rcases List.mem_cons.mp hy with rfl | hy'
        · exact ha'
        · exact hl1 y hy'

theorem markPaid_id (p : Parcel) (now : Nat) : (markPaid p now)._id = p._id := rfl

theorem markPaid_idem (p : Parcel) (now : Nat) :
    markPaid (markPaid p now) now = markPaid p now := rfl

theorem applySet_key (e : LedgerEntry) (d : SetDoc) :
    (applySet e d).paymentIntentId = e.paymentIntentId := rfl

theorem applySet_idem (e : LedgerEntry) (d : SetDoc) :
    applySet (applySet e d) d = applySet e d := rfl

theorem applySet_mkEntry (s : SOIDoc) (d : SetDoc) :
    applySet (mkEntry s d) d = mkEntry s d := rfl

/-- updateOne with a filter no document satisfies reports matchedCount 0
and leaves the collection unchanged. -/
theorem updateFirstMatch_nomatch (l : List Parcel) (f : ParcelFilter) (now : Nat)
    (h : ∀ p ∈ l, filterMatches f p._id = false) :
    updateFirstMatch l f now = (0, l) := by
  induction l with
  | nil => rfl
  | cons p ps ih =>
    have hp : filterMatches f p._id = false := h p (List.mem_cons_self p ps)
    have hps := ih (fun q hq => h q (List.mem_cons_of_mem p hq))
    simp [updateFirstMatch, hp, hps]

/-- updateOne around the first matching document: matchedCount 1 and only
that document is rewritten. -/
theorem updateFirstMatch_decomp (l1 : List Parcel) (q : Parcel) (l2 : List Parcel)
    (f : ParcelFilter) (now : Nat)
    (hl1 : ∀ x ∈ l1, filterMatches f x._id = false)
    (hq : filterMatches f q._id = true) :
    updateFirstMatch (l1 ++ q :: l2) f now = (1, l1 ++ markPaid q now :: l2) := by
  induction l1 with
  | nil => simp [updateFirstMatch, hq]
  | cons p ps ih =>
    have hp : filterMatches f p._id = false := hl1 p (List.mem_cons_self p ps)
    have hps := ih (fun x hx => hl1 x (List.mem_cons_of_mem p hx))
    simp [updateFirstMatch, hp, hps]

/-- Every document in the updated collection is either an original
document or the mark-Paid rewrite of an original matching document. -/
theorem updateFirstMatch_mem (l : List Parcel) (f : ParcelFilter) (now : Nat)
    (p' : Parcel) (h : p' ∈ (updateFirstMatch l f now).2) :
    p' ∈ l ∨ ∃ q ∈ l, filterMatches f q._id = true ∧ p' = markPaid q now := by
  induction l with
  | nil => simp [updateFirstMatch] at h
  | cons p ps ih =>
    by_cases hp : filterMatches f p._id = true
    · simp [updateFirstMatch, hp] at h
      rcases h with rfl | h'
      · exact Or.inr ⟨p, List.mem_cons_self p ps, hp, rfl⟩
      · exact Or.inl (List.mem_cons_of_mem p h')
    · have hp' : filterMatches f p._id = false := by
        cases hf : filterMatches f p._id with
        | true => exact absurd hf hp
        | false => rfl
      simp [updateFirstMatch, hp'] at h
      rcases h with rfl | h'
      · exact Or.inl (List.mem_cons_self p' ps)
      · rcases ih h' with hmem | ⟨q, hq, hqm, rfl⟩
        · exact Or.inl (List.mem_cons_of_mem p hmem)
        · exact Or.inr ⟨q, List.mem_cons_of_mem p hq, hqm, rfl⟩

/-- Upsert into a collection with no document holding the key: the merged
insert document is appended. -/
theorem upsertLedger_nokey (l : List LedgerEntry) (key : String)
    (ins : LedgerEntry) (sd : SetDoc)
    (h : ∀ e ∈ l, (e.paymentIntentId == key) = false) :
    upsertLedger l key ins sd = l ++ [ins] := by
  induction l with
  | nil => rfl
  | cons e es ih =>
    have he : (e.paymentIntentId == key) = false := h e (List.mem_cons_self e es)
    have hes := ih (fun x hx => h x (List.mem_cons_of_mem e hx))
    simp [upsertLedger, he, hes]

/-- Upsert around the first document holding the key: only that document
is rewritten, and only in its $set fields. -/
theorem upsertLedger_decomp (l1 : List LedgerEntry) (e : LedgerEntry)
    (l2 : List LedgerEntry) (key : String) (ins : LedgerEntry) (sd : SetDoc)
    (hl1 : ∀ x ∈ l1, (x.paymentIntentId == key) = false)
    (he : (e.paymentIntentId == key) = true) :
    upsertLedger (l1 ++ e :: l2) key ins sd = l1 ++ applySet e sd :: l2 := by
  induction l1 with
  | nil => simp [upsertLedger, he]
  | cons x xs ih =>
    have hx : (x.paymentIntentId == key) = false := hl1 x (List.mem_cons_self x xs)
    have hxs := ih (fun y hy => hl1 y (List.mem_cons_of_mem x hy))
    simp [upsertLedger, hx, hxs]

/-- After an upsert whose insert document carries the key, some document
holds the key. -/
theorem upsertLedger_hasKey (l : List LedgerEntry) (key : String)
    (ins : LedgerEntry) (sd : SetDoc) (hins : ins.paymentIntentId = key) :
    (upsertLedger l key ins sd).any (fun e => e.paymentIntentId == key) = true := by
  induction l with
  | nil => simp [upsertLedger, hins]
  | cons e es ih =>
    by_cases he : (e.paymentIntentId == key) = true
    · simp [upsertLedger, he, List.any_cons, applySet_key]
    · have he' : (e.paymentIntentId == key) = false := by
        cases hf : (e.paymentIntentId == key) with
        | true => exact absurd hf he
        | false => rfl
      simp [upsertLedger, he', List.any_cons, ih]
theorem beqFalseOfNe {s t : String} (h : s ≠ t) : (s == t) = false := by
  cases hb : s == t with
  | false => rfl
  | true => exact absurd (eq_of_beq hb) h

theorem filter_key_nil (l : List LedgerEntry) (key : String)
    (h : ∀ e ∈ l, (e.paymentIntentId == key) = false) :
    l.filter (fun e => e.paymentIntentId == key) = [] := by
  induction l with
  | nil => rfl
  | cons e es ih =>
    have he : (e.paymentIntentId == key) = false := h e (List.mem_cons_self e es)
    have hes := ih (fun x hx => h x (List.mem_cons_of_mem e hx))
    simp [List.filter_cons, he, hes]

theorem countKey_zero (l : List LedgerEntry) (key : String)
    (h : ∀ e ∈ l, (e.paymentIntentId == key) = false) : countKey l key = 0 := by
  simp [countKey, filter_key_nil l key h]

theorem countKey_append (l1 l2 : List LedgerEntry) (key : String) :
    countKey (l1 ++ l2) key = countKey l1 key + countKey l2 key := by
  simp [countKey, List.filter_append]

theorem countKey_cons_pos (e : LedgerEntry) (l : List LedgerEntry) (key : String)
    (he : (e.paymentIntentId == key) = true) :
    countKey (e :: l) key = countKey l key + 1 := by
  simp [countKey, List.filter_cons, he]

/-- Upsert into a collection respecting the unique index leaves exactly
one document holding the key. -/
theorem countKey_upsert (l : List LedgerEntry) (key : String)
    (ins : LedgerEntry) (sd : SetDoc)
    (hins : ins.paymentIntentId = key) (h : countKey l key ≤ 1) :
    countKey (upsertLedger l key ins sd) key = 1 := by
  rcases first_occ_decomp l (fun e => e.paymentIntentId == key) with hno | ⟨l1, e, l2, hdec, hl1, he⟩
  · rw [upsertLedger_nokey l key ins sd hno, countKey_append, countKey_zero l key hno,
      countKey_cons_pos _ _ _ (by simp [hins]), countKey_zero [] key (by simp)]
  · subst hdec
    rw [upsertLedger_decomp l1 e l2 key ins sd hl1 he]
    have h1 : countKey l1 key = 0 := countKey_zero l1 key hl1
    have hc := h
    rw [countKey_append, countKey_cons_pos _ _ _ he, h1] at hc
    have h2 : countKey l2 key = 0 := by omega
    rw [countKey_append, countKey_cons_pos _ _ _ (by rw [applySet_key]; exact he), h1, h2]

/-- Validation phase of the part_000 handler succeeds exactly on a truthy
id pair, a retrieved succeeded intent, and passing sanity checks. -/
theorem confirmChecksP0_ok (gw : Gateway) (b : ConfirmBody) (pi : PaymentIntent)
    (pid piid : String)
    (hpid : b.parcelId = some pid) (hpid' : pid ≠ "")
    (hpiid : b.paymentIntentId = some piid) (hpiid' : piid ≠ "")
    (hgw : gw piid = GatewayResp.retrieved (some pi))
    (hst : pi.status = "succeeded")
    (ham : amountMismatch b.amountInCents pi.amount = false)
    (hcur : currencyMismatch b.currency pi.currency = false) :
    confirmChecksP0 gw b = Except.ok pi := by
  have h1 : jsFalsy b.parcelId = false := by
    rw [hpid]; simp [jsFalsy, beqFalseOfNe hpid']
  have h2 : jsFalsy b.paymentIntentId = false := by
    rw [hpiid]; simp [jsFalsy, beqFalseOfNe hpiid']
  have h3 : b.paymentIntentId.getD "" = piid := by rw [hpiid]; rfl
  simp [confirmChecksP0, h1, h2, h3, hgw, hst, ham, hcur]

/-- Full success path of the part_000 handler: the parcel update rewrites
exactly the first matching parcel, the ledger upsert runs on the payments
collection, and the response is HTTP 200. -/
theorem confirmP0_success_eq (gw : Gateway) (db : DB) (b : ConfirmBody) (now : Nat)
    (pi : PaymentIntent) (pid piid : String)
    (hpid : b.parcelId = some pid) (hpid' : pid ≠ "")
    (hpiid : b.paymentIntentId = some piid) (hpiid' : piid ≠ "")
    (hgw : gw piid = GatewayResp.retrieved (some pi))
    (hst : pi.status = "succeeded")
    (ham : amountMismatch b.amountInCents pi.amount = false)
    (hcur : currencyMismatch b.currency pi.currency = false)
    (l1 : List Parcel) (q : Parcel) (l2 : List Parcel)
    (hdec : db.parcels = l1 ++ q :: l2)
    (hl1 : ∀ x ∈ l1, filterMatches (parcelFilterOf pid) x._id = false)
    (hq : filterMatches (parcelFilterOf pid) q._id = true) :
    confirmP0 gw db b now =
      { resp := { status := 200, success := true
                  message := "Payment recorded and parcel marked Paid"
                  data := if isValidObjectId pid then
                            findOneId (l1 ++ markPaid q now :: l2) (MongoId.oid (mkOid pid))
                          else findOneId (l1 ++ markPaid q now :: l2) (MongoId.str pid) }
        db := { db with parcels := l1 ++ markPaid q now :: l2
                        payments := upsertLedger db.payments pi.id
                          (mkEntry (soiDocP0 b pid pi now) (setDocOf pi)) (setDocOf pi) }
        trace := [Effect.parcelUpdate, Effect.ledgerUpsert] } := by
  have hchk := confirmChecksP0_ok gw b pi pid piid hpid hpid' hpiid hpiid' hgw hst ham hcur
  have hpd : b.parcelId.getD "" = pid := by rw [hpid]; rfl
  have hupd : updateFirstMatch db.parcels (parcelFilterOf pid) now
      = (1, l1 ++ markPaid q now :: l2) := by
    rw [hdec]; exact updateFirstMatch_decomp l1 q l2 _ now hl1 hq
  unfold confirmP0
  rw [hchk]
  simp [confirmMutateP0, hpd, hupd]

/-- Claim C6: for every non-empty caller-supplied parcel id string, the
Identifier Resolver yields the two-clause OR predicate (canonical ObjectId
clause OR literal string clause) exactly when the string is a valid
canonical identifier, and otherwise the single-clause literal-string
predicate; parcelFilterOf is a pure function of the string. -/
theorem parcelFilter_resolver (pid : String) (h : pid ≠ "") :
    (isValidObjectId pid = true →
      parcelFilterOf pid = ParcelFilter.orF [MongoId.oid (mkOid pid), MongoId.str pid]) ∧
    (isValidObjectId pid = false →
      parcelFilterOf pid = ParcelFilter.single (MongoId.str pid)) := by
  constructor <;> intro hv <;> simp [parcelFilterOf, orFilterList, hv]

/-- Witness for C6 at the valid canonical id "aabbccddeeff001122334455" and
at the plain string id "p1". -/
theorem parcelFilter_resolver_witness :
    parcelFilterOf "aabbccddeeff001122334455" =
      ParcelFilter.orF [MongoId.oid (mkOid "aabbccddeeff001122334455"),
        MongoId.str "aabbccddeeff001122334455"] ∧
    parcelFilterOf "p1" = ParcelFilter.single (MongoId.str "p1") :=
  ⟨(parcelFilter_resolver "aabbccddeeff001122334455" (by decide)).1 (by decide),
   (parcelFilter_resolver "p1" (by decide)).2 (by decide)⟩

/-- Claim C7: in every execution of either confirm handler, every ledger upsert
in the trace of issued store mutations is preceded by an already completed
parcel update; no execution writes a ledger entry before its parcel
update. -/
theorem confirm_update_before_upsert (gw : Gateway) (db : DB) (b : ConfirmBody) (now : Nat) :
    ledgerAfterParcel (confirmP0 gw db b now).trace false = true ∧
    ledgerAfterParcel (confirmSJ gw db b now).trace false = true := by
  constructor
  · unfold confirmP0
    cases h : confirmChecksP0 gw b with
    | error r => simp [ledgerAfterParcel]
    | ok pi =>
      simp only [confirmMutateP0]
      split <;> simp [ledgerAfterParcel]
  · unfold confirmSJ
    cases confirmChecksSJ gw b with
    | error r => simp [ledgerAfterParcel]
    | ok pi => simp [confirmMutateSJ, ledgerAfterParcel]

/-- Concrete succeeded payment intent used by witnesses: 500 minor units,
usd. -/
def piTest : PaymentIntent :=
  { id := "pi_1", status := "succeeded", amount := 500, currency := "usd"
    metadata := { parcelId := some "p1", payerEmail := some "a@b.c" } }

/-- Concrete gateway knowing exactly piTest. -/
def gwTest : Gateway := fun s =>
  if s == "pi_1" then GatewayResp.retrieved (some piTest) else GatewayResp.retrieved none

/-- Concrete unpaid parcel stored under the legacy string id "p1". -/
def parcelTest : Parcel :=
  { _id := MongoId.str "p1", paymentStatus := "Unpaid", createdByEmail := some "a@b.c"
    createdAtReadable := "0", createdAt := 0, updatedAt := 0, otherFields := [] }

/-- Concrete database holding only parcelTest and an empty ledger. -/
def dbTest : DB := { parcels := [parcelTest], payments := [], tracking := [] }

/-- Error-path helper: a failed validation phase returns its response with
the database untouched and no store operation issued. -/
theorem confirmP0_error (gw : Gateway) (db : DB) (b : ConfirmBody) (now : Nat)
    (r : Resp) (h : confirmChecksP0 gw b = Except.error r) :
    confirmP0 gw db b now = { resp := r, db := db, trace := [] } := by
  unfold confirmP0; rw [h]

/-- Validation phase fails with the amount-mismatch message when the
truthiness-guarded amount check fires. -/
theorem confirmChecksP0_err_amount (gw : Gateway) (b : ConfirmBody) (pi : PaymentIntent)
    (pid piid : String)
    (hpid : b.parcelId = some pid) (hpid' : pid ≠ "")
    (hpiid : b.paymentIntentId = some piid) (hpiid' : piid ≠ "")
    (hgw : gw piid = GatewayResp.retrieved (some pi))
    (hst : pi.status = "succeeded")
    (hA : amountMismatch b.amountInCents pi.amount = true) :
    confirmChecksP0 gw b = Except.error (mkErr 400 "Amount mismatch") := by
  have h1 : jsFalsy b.parcelId = false := by
    rw [hpid]; simp [jsFalsy, beqFalseOfNe hpid']
  have h2 : jsFalsy b.paymentIntentId = false := by
    rw [hpiid]; simp [jsFalsy, beqFalseOfNe hpiid']
  have h3 : b.paymentIntentId.getD "" = piid := by rw [hpiid]; rfl
  simp [confirmChecksP0, h1, h2, h3, hgw, hst, hA]

/-- Validation phase fails with the currency-mismatch message when the
amount check passes and the currency check fires. -/
theorem confirmChecksP0_err_currency (gw : Gateway) (b : ConfirmBody) (pi : PaymentIntent)
    (pid piid : String)
    (hpid : b.parcelId = some pid) (hpid' : pid ≠ "")
    (hpiid : b.paymentIntentId = some piid) (hpiid' : piid ≠ "")
    (hgw : gw piid = GatewayResp.retrieved (some pi))
    (hst : pi.status = "succeeded")
    (ham : amountMismatch b.amountInCents pi.amount = false)
    (hC : currencyMismatch b.currency pi.currency = true) :
    confirmChecksP0 gw b = Except.error (mkErr 400 "Currency mismatch") := by
  have h1 : jsFalsy b.parcelId = false := by
    rw [hpid]; simp [jsFalsy, beqFalseOfNe hpid']
  have h2 : jsFalsy b.paymentIntentId = false := by
    rw [hpiid]; simp [jsFalsy, beqFalseOfNe hpiid']
  have h3 : b.paymentIntentId.getD "" = piid := by rw [hpiid]; rfl
  simp [confirmChecksP0, h1, h2, h3, hgw, hst, ham, hC]

/-- Claim C10: a confirm request carrying amountInCents = 0 (present but falsy)
bypasses the amount cross-check entirely: on a succeeded intent it
completes with HTTP 200 and upserts the ledger regardless of the verified
amount. -/
theorem amount_zero_skips_check (gw : Gateway) (db : DB) (b : ConfirmBody) (now : Nat)
    (pi : PaymentIntent) (pid piid : String)
    (hpid : b.parcelId = some pid) (hpid' : pid ≠ "")
    (hpiid : b.paymentIntentId = some piid) (hpiid' : piid ≠ "")
    (hgw : gw piid = GatewayResp.retrieved (some pi))
    (hst : pi.status = "succeeded")
    (ham0 : b.amountInCents = some 0)
    (hcur : currencyMismatch b.currency pi.currency = false)
    (l1 : List Parcel) (q : Parcel) (l2 : List Parcel)
    (hdec : db.parcels = l1 ++ q :: l2)
    (hl1 : ∀ x ∈ l1, filterMatches (parcelFilterOf pid) x._id = false)
    (hq : filterMatches (parcelFilterOf pid) q._id = true) :
    (confirmP0 gw db b now).resp.status = 200 ∧
    (confirmP0 gw db b now).resp.message = "Payment recorded and parcel marked Paid" ∧
    ((confirmP0 gw db b now).db.payments.any
      (fun e => e.paymentIntentId == pi.id)) = true := by
  have ham : amountMismatch b.amountInCents pi.amount = false := by
    rw [ham0]; simp [amountMismatch]
  have h := confirmP0_success_eq gw db b now pi pid piid hpid hpid' hpiid hpiid'
    hgw hst ham hcur l1 q l2 hdec hl1 hq
  rw [h]
  exact ⟨rfl, rfl, upsertLedger_hasKey _ _ _ _ rfl⟩

/-- Witness for C10: amountInCents 0 supplied, verified amount 500 (nonzero
and different from 0), yet the confirmation succeeds with HTTP 200. -/
theorem amount_zero_skips_check_witness :
    piTest.amount = 500 ∧ (0 : Int) ≠ piTest.amount ∧
    (confirmP0 gwTest dbTest
      { parcelId := some "p1", paymentIntentId := some "pi_1", amountInCents := some 0 }
      7).resp.status = 200 := by
  refine ⟨rfl, by decide, ?_⟩
  exact (amount_zero_skips_check gwTest dbTest
    { parcelId := some "p1", paymentIntentId := some "pi_1", amountInCents := some 0 }
    7 piTest "p1" "pi_1" rfl (by decide) rfl (by decide) rfl rfl rfl (by decide)
    [] parcelTest [] rfl (by simp) (by decide)).1

/-- Counterexample to C1 as stated: the caller supplies amountInCents = 0,
which differs from the gateway-verified amount 500, yet confirm does not
fail with the amount-mismatch error — it answers HTTP 200 and flips the
parcel to Paid, because the guard tests truthiness and 0 is falsy. -/
theorem confirm_amount_mismatch_cex :
    (0 : Int) ≠ piTest.amount ∧
    (confirmP0 gwTest dbTest
      { parcelId := some "p1", paymentIntentId := some "pi_1", amountInCents := some 0 }
      7).resp.status = 200 ∧
    (confirmP0 gwTest dbTest
      { parcelId := some "p1", paymentIntentId := some "pi_1", amountInCents := some 0 }
      7).resp.message ≠ "Amount mismatch" ∧
    ((confirmP0 gwTest dbTest
      { parcelId := some "p1", paymentIntentId := some "pi_1", amountInCents := some 0 }
      7).db.parcels.map (fun p => p.paymentStatus)) = ["Paid"] := by
  refine ⟨by decide, ?_, ?_, ?_⟩ <;> decide

/-- Claim C1 amended: on a gateway-verified succeeded intent, a supplied nonzero
amountInCents differing from the verified amount fails with the
amount-mismatch error, and a supplied (or defaulted) non-empty currency
whose lower-casing differs from the verified currency fails with the
currency-mismatch error; in both cases HTTP 400 and the database — parcel
statuses and ledger alike — is left untouched, with no store mutation
issued. -/
theorem confirm_mismatch_rejected (gw : Gateway) (db : DB) (b : ConfirmBody) (now : Nat)
    (pi : PaymentIntent) (pid piid : String) (v : Int)
    (hpid : b.parcelId = some pid) (hpid' : pid ≠ "")
    (hpiid : b.paymentIntentId = some piid) (hpiid' : piid ≠ "")
    (hgw : gw piid = GatewayResp.retrieved (some pi))
    (hst : pi.status = "succeeded") :
    (b.amountInCents = some v → v ≠ 0 → v ≠ pi.amount →
      confirmP0 gw db b now =
        { resp := mkErr 400 "Amount mismatch", db := db, trace := [] }) ∧
    (amountMismatch b.amountInCents pi.amount = false →
      effCurrency b.currency ≠ "" →
      strToLower (effCurrency b.currency) ≠ pi.currency →
      confirmP0 gw db b now =
        { resp := mkErr 400 "Currency mismatch", db := db, trace := [] }) := by
  constructor
  · intro hv hv0 hvne
    have hA : amountMismatch b.amountInCents pi.amount = true := by
      simp [amountMismatch, hv, hv0, hvne]
    exact confirmP0_error gw db b now _
      (confirmChecksP0_err_amount gw b pi pid piid hpid hpid' hpiid hpiid' hgw hst hA)
  · intro ham hce hcl
    have hC : currencyMismatch b.currency pi.currency = true := by
      simp [currencyMismatch, hce, hcl]
    exact confirmP0_error gw db b now _
      (confirmChecksP0_err_currency gw b pi pid piid hpid hpid' hpiid hpiid' hgw hst ham hC)

/-- Witness for the amended C1: amount 999 against verified 500 yields the
amount-mismatch rejection with the database untouched; currency "eur"
against verified "usd" yields the currency-mismatch rejection with the
database untouched. -/
theorem confirm_mismatch_rejected_witness :
    confirmP0 gwTest dbTest
      { parcelId := some "p1", paymentIntentId := some "pi_1", amountInCents := some 999 }
      7 = { resp := mkErr 400 "Amount mismatch", db := dbTest, trace := [] } ∧
    confirmP0 gwTest dbTest
      { parcelId := some "p1", paymentIntentId := some "pi_1", currency := some "eur" }
      7 = { resp := mkErr 400 "Currency mismatch", db := dbTest, trace := [] } :=
  ⟨(confirm_mismatch_rejected gwTest dbTest
      { parcelId := some "p1", paymentIntentId := some "pi_1", amountInCents := some 999 }
      7 piTest "p1" "pi_1" 999 rfl (by decide) rfl (by decide) rfl rfl).1
      rfl (by decide) (by decide),
   (confirm_mismatch_rejected gwTest dbTest
      { parcelId := some "p1", paymentIntentId := some "pi_1", currency := some "eur" }
      7 piTest "p1" "pi_1" 0 rfl (by decide) rfl (by decide) rfl rfl).2
      (by decide) (by decide) (by decide)⟩

/-- Pre-existing ledger document under an unrelated payment-intent id,
used to observe that failed calls leave the ledger untouched. -/
def eTest : LedgerEntry :=
  { paymentIntentId := "pi_0", parcelId := MongoId.str "p9", payerName := none
    payerEmail := none, country := none, postalCode := none, createdAt := 0
    status := "succeeded", amount := 100, currency := "usd" }

/-- Concrete database with no parcel matching "p1" and one ledger entry. -/
def dbNF : DB := { parcels := [], payments := [eTest], tracking := [] }

/-- Claim C2: a gateway-verified succeeded confirmation whose parcel-lookup
predicate matches zero parcels fails with the parcel-not-found error as an
HTTP 404, and the database — in particular the Ledger Store — is exactly
the state before the call; only the (vacuous) parcel update was issued,
never the ledger upsert. -/
theorem confirm_parcel_not_found (gw : Gateway) (db : DB) (b : ConfirmBody) (now : Nat)
    (pi : PaymentIntent) (pid piid : String)
    (hpid : b.parcelId = some pid) (hpid' : pid ≠ "")
    (hpiid : b.paymentIntentId = some piid) (hpiid' : piid ≠ "")
    (hgw : gw piid = GatewayResp.retrieved (some pi))
    (hst : pi.status = "succeeded")
    (ham : amountMismatch b.amountInCents pi.amount = false)
    (hcur : currencyMismatch b.currency pi.currency = false)
    (hnone : ∀ p ∈ db.parcels, filterMatches (parcelFilterOf pid) p._id = false) :
    confirmP0 gw db b now =
      { resp := mkErr 404
          ("Parcel not found for id " ++ pid ++ " (check if _id is string vs ObjectId)")
        db := db
        trace := [Effect.parcelUpdate] } := by
  have hchk := confirmChecksP0_ok gw b pi pid piid hpid hpid' hpiid hpiid' hgw hst ham hcur
  have hpd : b.parcelId.getD "" = pid := by rw [hpid]; rfl
  have hupd := updateFirstMatch_nomatch db.parcels (parcelFilterOf pid) now hnone
  unfold confirmP0
  rw [hchk]
  simp [confirmMutateP0, hpd, hupd]

/-- Witness for C2: verified succeeded intent pi_1, no parcel matches
"p1", the call 404s and the ledger still holds exactly its prior entry. -/
theorem confirm_parcel_not_found_witness :
    confirmP0 gwTest dbNF { parcelId := some "p1", paymentIntentId := some "pi_1" } 7 =
      { resp := mkErr 404
          ("Parcel not found for id " ++ "p1" ++ " (check if _id is string vs ObjectId)")
        db := dbNF
        trace := [Effect.parcelUpdate] } ∧
    dbNF.payments = [eTest] :=
  ⟨confirm_parcel_not_found gwTest dbNF
      { parcelId := some "p1", paymentIntentId := some "pi_1" } 7 piTest "p1" "pi_1"
      rfl (by decide) rfl (by decide) rfl rfl rfl (by decide) (by simp [dbNF]),
   rfl⟩

/-- Concrete succeeded payment intent in a non-usd currency. -/
def piEur : PaymentIntent :=
  { id := "pi_2", status := "succeeded", amount := 500, currency := "eur"
    metadata := { parcelId := some "p1", payerEmail := none } }

/-- Concrete gateway knowing exactly piEur. -/
def gwEur : Gateway := fun s =>
  if s == "pi_2" then GatewayResp.retrieved (some piEur) else GatewayResp.retrieved none

/-- Counterexample to C9 as stated: the caller supplies neither
amountInCents nor currency, the gateway-verified intent is succeeded in
"eur", and the confirmation does not proceed — the destructuring default
"usd" makes the currency cross-check run and fail with the
currency-mismatch error, leaving the parcel Unpaid. -/
theorem currency_default_mismatch_cex :
    (confirmP0 gwEur dbTest
      { parcelId := some "p1", paymentIntentId := some "pi_2" } 7).resp.status = 400 ∧
    (confirmP0 gwEur dbTest
      { parcelId := some "p1", paymentIntentId := some "pi_2" } 7).resp.message
        = "Currency mismatch" ∧
    (confirmP0 gwEur dbTest
      { parcelId := some "p1", paymentIntentId := some "pi_2" } 7).db = dbTest ∧
    (dbTest.parcels.map (fun p => p.paymentStatus)) = ["Unpaid"] := by
  refine ⟨?_, ?_, ?_, ?_⟩ <;> decide

/-- Claim C9 amended: when the caller supplies neither amountInCents nor
currency, the amount cross-check is indeed skipped, but the currency
cross-check is not: the destructured default "usd" is checked against the
verified currency.  The confirmation proceeds (marks the matched parcel
Paid and upserts the ledger) exactly when the verified currency is "usd";
for any other verified currency it fails with the currency-mismatch error
and no mutation. -/
theorem confirm_no_optional_args (gw : Gateway) (db : DB) (b : ConfirmBody) (now : Nat)
    (pi : PaymentIntent) (pid piid : String)
    (hpid : b.parcelId = some pid) (hpid' : pid ≠ "")
    (hpiid : b.paymentIntentId = some piid) (hpiid' : piid ≠ "")
    (hgw : gw piid = GatewayResp.retrieved (some pi))
    (hst : pi.status = "succeeded")
    (hA : b.amountInCents = none) (hC : b.currency = none) :
    (pi.currency ≠ "usd" →
      confirmP0 gw db b now =
        { resp := mkErr 400 "Currency mismatch", db := db, trace := [] }) ∧
    (pi.currency = "usd" →
      ∀ l1 q l2, db.parcels = l1 ++ q :: l2 →
        (∀ x ∈ l1, filterMatches (parcelFilterOf pid) x._id = false) →
        filterMatches (parcelFilterOf pid) q._id = true →
        (confirmP0 gw db b now).resp.status = 200 ∧
        (confirmP0 gw db b now).db.parcels = l1 ++ markPaid q now :: l2 ∧
        ((confirmP0 gw db b now).db.payments.any
          (fun e => e.paymentIntentId == pi.id)) = true) := by
  have ham : amountMismatch b.amountInCents pi.amount = false := by
    rw [hA]; rfl
  constructor
  · intro hne
    have hcm : currencyMismatch b.currency pi.currency = true := by
      rw [hC]
      simp [currencyMismatch, effCurrency, show strToLower "usd" = "usd" from by decide]
      exact Ne.symm hne
    exact confirmP0_error gw db b now _
      (confirmChecksP0_err_currency gw b pi pid piid hpid hpid' hpiid hpiid' hgw hst ham hcm)
  · intro husd l1 q l2 hdec hl1 hq
    have hcm : currencyMismatch b.currency pi.currency = false := by
      rw [hC, husd]; decide
    have h := confirmP0_success_eq gw db b now pi pid piid hpid hpid' hpiid hpiid'
      hgw hst ham hcm l1 q l2 hdec hl1 hq
    rw [h]
    exact ⟨rfl, rfl, upsertLedger_hasKey _ _ _ _ rfl⟩

/-- Witness for the amended C9: with no optional arguments, a usd-verified
intent confirms the parcel (HTTP 200, parcel Paid, ledger keyed pi_1),
while the eur-verified intent is rejected with the currency-mismatch
error and no mutation. -/
theorem confirm_no_optional_args_witness :
    (confirmP0 gwTest dbTest
      { parcelId := some "p1", paymentIntentId := some "pi_1" } 7).resp.status = 200 ∧
    (confirmP0 gwTest dbTest
      { parcelId := some "p1", paymentIntentId := some "pi_1" } 7).db.parcels
        = [] ++ markPaid parcelTest 7 :: [] ∧
    confirmP0 gwEur dbTest
      { parcelId := some "p1", paymentIntentId := some "pi_2" } 7 =
      { resp := mkErr 400 "Currency mismatch", db := dbTest, trace := [] } := by
  have h1 := (confirm_no_optional_args gwTest dbTest
    { parcelId := some "p1", paymentIntentId := some "pi_1" } 7 piTest "p1" "pi_1"
    rfl (by decide) rfl (by decide) rfl rfl rfl rfl).2 rfl
    [] parcelTest [] rfl (by simp) (by decide)
  have h2 := (confirm_no_optional_args gwEur dbTest
    { parcelId := some "p1", paymentIntentId := some "pi_2" } 7 piEur "p1" "pi_2"
    rfl (by decide) rfl (by decide) rfl rfl rfl rfl).1 (by decide)
  exact ⟨h1.1, h1.2.1, h2⟩

/-- Concrete gateway whose retrieve call always throws. -/
def gwThrow : Gateway := fun _ => GatewayResp.threw "gateway unreachable"

/-- Counterexample to C4 as stated: with an unreachable gateway the
confirm request is rejected through the catch block as HTTP 500 (the
thrown message), not as an HTTP 400 PaymentNotSucceeded rejection; the
database is untouched. -/
theorem gateway_throw_http500_cex :
    (confirmSJ gwThrow dbTest
      { parcelId := some "p1", paymentIntentId := some "pi_1" } 7).resp.status = 500 ∧
    (confirmSJ gwThrow dbTest
      { parcelId := some "p1", paymentIntentId := some "pi_1" } 7).resp.status ≠ 400 ∧
    (confirmSJ gwThrow dbTest
      { parcelId := some "p1", paymentIntentId := some "pi_1" } 7).db = dbTest := by
  refine ⟨?_, ?_, ?_⟩ <;> decide

/-- Claim C4 amended: every confirm request failing at step 1 (missing
parcelId/paymentIntentId, HTTP 400) or step 2 (gateway throw, HTTP 500
via the catch block; null or non-succeeded intent, HTTP 400) is rejected
with the database untouched and an empty mutation trace: the rejection
happens before any write is attempted. -/
theorem confirm_failfast_no_mutation (gw : Gateway) (db : DB) (b : ConfirmBody) (now : Nat) :
    ((jsFalsy b.parcelId || jsFalsy b.paymentIntentId) = true →
      confirmSJ gw db b now =
        { resp := mkErr 400 "parcelId and paymentIntentId are required"
          db := db, trace := [] }) ∧
    (∀ m, (jsFalsy b.parcelId || jsFalsy b.paymentIntentId) = false →
      gw (b.paymentIntentId.getD "") = GatewayResp.threw m →
      confirmSJ gw db b now = { resp := mkErr 500 m, db := db, trace := [] }) ∧
    ((jsFalsy b.parcelId || jsFalsy b.paymentIntentId) = false →
      gw (b.paymentIntentId.getD "") = GatewayResp.retrieved none →
      confirmSJ gw db b now =
        { resp := mkErr 400 "PaymentIntent not succeeded", db := db, trace := [] }) ∧
    (∀ pi, (jsFalsy b.parcelId || jsFalsy b.paymentIntentId) = false →
      gw (b.paymentIntentId.getD "") = GatewayResp.retrieved (some pi) →
      pi.status ≠ "succeeded" →
      confirmSJ gw db b now =
        { resp := mkErr 400 "PaymentIntent not succeeded", db := db, trace := [] }) := by
  refine ⟨?_, ?_, ?_, ?_⟩
  · intro h
    simp [confirmSJ, confirmChecksSJ, h]
  · intro m h hg
    simp [confirmSJ, confirmChecksSJ, h, hg]
  · intro h hg
    simp [confirmSJ, confirmChecksSJ, h, hg]
  · intro pi h hg hs
    simp [confirmSJ, confirmChecksSJ, h, hg, hs]

/-- Witness for the amended C4: a request missing parcelId is rejected 400
with the database untouched, and a request against the unreachable gateway
is rejected 500 with the database untouched. -/
theorem confirm_failfast_no_mutation_witness :
    confirmSJ gwTest dbTest { parcelId := none, paymentIntentId := some "pi_1" } 7 =
      { resp := mkErr 400 "parcelId and paymentIntentId are required"
        db := dbTest, trace := [] } ∧
    confirmSJ gwThrow dbTest { parcelId := some "p1", paymentIntentId := some "pi_1" } 7 =
      { resp := mkErr 500 "gateway unreachable", db := dbTest, trace := [] } :=
  ⟨(confirm_failfast_no_mutation gwTest dbTest
      { parcelId := none, paymentIntentId := some "pi_1" } 7).1 (by decide),
   (confirm_failfast_no_mutation gwThrow dbTest
      { parcelId := some "p1", paymentIntentId := some "pi_1" } 7).2.1
      "gateway unreachable" (by decide) rfl⟩

/-- Claim C5: a confirm call on a payment-intent id that already has a ledger
entry rewrites exactly that entry, leaving every set-on-insert field
(paymentIntentId, parcelId, payerName, payerEmail, country, postalCode,
createdAt) unchanged and refreshing only the always-set fields (status,
amount, currency) from the gateway state; all other ledger documents are
untouched and no document is added. -/
theorem upsert_preserves_origin_fields (gw : Gateway) (db : DB) (b : ConfirmBody) (now : Nat)
    (pi : PaymentIntent) (pid piid : String)
    (hpid : b.parcelId = some pid) (hpid' : pid ≠ "")
    (hpiid : b.paymentIntentId = some piid) (hpiid' : piid ≠ "")
    (hgw : gw piid = GatewayResp.retrieved (some pi))
    (hst : pi.status = "succeeded")
    (ham : amountMismatch b.amountInCents pi.amount = false)
    (hcur : currencyMismatch b.currency pi.currency = false)
    (l1 : List Parcel) (q : Parcel) (l2 : List Parcel)
    (hdec : db.parcels = l1 ++ q :: l2)
    (hl1 : ∀ x ∈ l1, filterMatches (parcelFilterOf pid) x._id = false)
    (hq : filterMatches (parcelFilterOf pid) q._id = true)
    (m1 : List LedgerEntry) (e : LedgerEntry) (m2 : List LedgerEntry)
    (hm : db.payments = m1 ++ e :: m2)
    (hm1 : ∀ x ∈ m1, (x.paymentIntentId == pi.id) = false)
    (he : e.paymentIntentId = pi.id) :
    (confirmP0 gw db b now).db.payments =
      m1 ++ { e with status := pi.status, amount := pi.amount, currency := pi.currency } :: m2 := by
  have h := confirmP0_success_eq gw db b now pi pid piid hpid hpid' hpiid hpiid'
    hgw hst ham hcur l1 q l2 hdec hl1 hq
  rw [h]
  show upsertLedger db.payments pi.id _ _ = _
  rw [hm, upsertLedger_decomp m1 e m2 pi.id _ _ hm1 (by simp [he])]
  rfl

/-- Ledger entry for pi_1 as the first confirmation would have written it,
with stale always-set fields to be refreshed. -/
def ePrior : LedgerEntry :=
  { paymentIntentId := "pi_1", parcelId := MongoId.str "p1", payerName := some "N"
    payerEmail := some "a@b.c", country := none, postalCode := none, createdAt := 3
    status := "requires_capture", amount := 450, currency := "usd" }

/-- Concrete database where pi_1 already has the ledger entry ePrior. -/
def dbPrior : DB := { parcels := [parcelTest], payments := [ePrior], tracking := [] }

/-- Witness for C5: re-confirming pi_1 rewrites ePrior in place — origin
fields preserved, status/amount/currency refreshed — and adds nothing. -/
theorem upsert_preserves_origin_fields_witness :
    (confirmP0 gwTest dbPrior
      { parcelId := some "p1", paymentIntentId := some "pi_1" } 7).db.payments =
      [] ++ { ePrior with status := piTest.status, amount := piTest.amount
                          currency := piTest.currency } :: [] :=
  upsert_preserves_origin_fields gwTest dbPrior
    { parcelId := some "p1", paymentIntentId := some "pi_1" } 7 piTest "p1" "pi_1"
    rfl (by decide) rfl (by decide) rfl rfl rfl (by decide)
    [] parcelTest [] rfl (by simp) (by decide)
    [] ePrior [] rfl (by simp) rfl

/-- Replaying the same upsert converges: running it twice with the same
key, insert document and $set document leaves the collection of the first
run unchanged. -/
theorem upsertLedger_idem (l : List LedgerEntry) (key : String)
    (ins : LedgerEntry) (sd : SetDoc)
    (hins : ins.paymentIntentId = key) (hfix : applySet ins sd = ins) :
    upsertLedger (upsertLedger l key ins sd) key ins sd = upsertLedger l key ins sd := by
  rcases first_occ_decomp l (fun e => e.paymentIntentId == key) with hno | ⟨m1, e, m2, hdec, hm1, he⟩
  · rw [upsertLedger_nokey l key ins sd hno]
    have : upsertLedger (l ++ ins :: []) key ins sd = l ++ applySet ins sd :: [] :=
      upsertLedger_decomp l ins [] key ins sd hno (by simp [hins])
    simpa [hfix] using this
  · subst hdec
    rw [upsertLedger_decomp m1 e m2 key ins sd hm1 he]
    rw [upsertLedger_decomp m1 (applySet e sd) m2 key ins sd hm1 (by simp [applySet_key]; exact eq_of_beq he)]
    rw [applySet_idem]

/-- Claim C3: on a state where the confirmation of a succeeded payment intent
goes through, replaying confirm with identical arguments succeeds again
(HTTP 200, no uniqueness error surfaced), reaches exactly the same
database state as the first call, and the ledger holds exactly one entry
keyed by the payment-intent id. -/
theorem confirm_idempotent (gw : Gateway) (db : DB) (b : ConfirmBody) (now : Nat)
    (pi : PaymentIntent) (pid piid : String)
    (hpid : b.parcelId = some pid) (hpid' : pid ≠ "")
    (hpiid : b.paymentIntentId = some piid) (hpiid' : piid ≠ "")
    (hgw : gw piid = GatewayResp.retrieved (some pi))
    (hst : pi.status = "succeeded")
    (ham : amountMismatch b.amountInCents pi.amount = false)
    (hcur : currencyMismatch b.currency pi.currency = false)
    (l1 : List Parcel) (q : Parcel) (l2 : List Parcel)
    (hdec : db.parcels = l1 ++ q :: l2)
    (hl1 : ∀ x ∈ l1, filterMatches (parcelFilterOf pid) x._id = false)
    (hq : filterMatches (parcelFilterOf pid) q._id = true)
    (huniq : countKey db.payments pi.id ≤ 1) :
    (confirmP0 gw db b now).resp.status = 200 ∧
    (confirmP0 gw (confirmP0 gw db b now).db b now).resp.status = 200 ∧
    (confirmP0 gw (confirmP0 gw db b now).db b now).db = (confirmP0 gw db b now).db ∧
    countKey (confirmP0 gw db b now).db.payments pi.id = 1 := by
  have h1 := confirmP0_success_eq gw db b now pi pid piid hpid hpid' hpiid hpiid'
    hgw hst ham hcur l1 q l2 hdec hl1 hq
  have hq2 : filterMatches (parcelFilterOf pid) (markPaid q now)._id = true := by
    rw [markPaid_id]; exact hq
  have h2 := confirmP0_success_eq gw (confirmP0 gw db b now).db b now pi pid piid
    hpid hpid' hpiid hpiid' hgw hst ham hcur l1 (markPaid q now) l2
    (by rw [h1]) hl1 hq2
  refine ⟨by rw [h1], by rw [h2], ?_, ?_⟩
  · rw [h2, h1]
    simp [markPaid_idem]
    exact upsertLedger_idem db.payments pi.id _ _ rfl (applySet_mkEntry _ _)
  · rw [h1]
    exact countKey_upsert db.payments pi.id _ _ rfl huniq

/-- Witness for C3: confirming pi_1 on dbTest and replaying it converges
on one state with exactly one pi_1 ledger entry. -/
theorem confirm_idempotent_witness :
    (confirmP0 gwTest dbTest
      { parcelId := some "p1", paymentIntentId := some "pi_1" } 7).resp.status = 200 ∧
    (confirmP0 gwTest (confirmP0 gwTest dbTest
      { parcelId := some "p1", paymentIntentId := some "pi_1" } 7).db
      { parcelId := some "p1", paymentIntentId := some "pi_1" } 7).db =
      (confirmP0 gwTest dbTest
        { parcelId := some "p1", paymentIntentId := some "pi_1" } 7).db ∧
    countKey (confirmP0 gwTest dbTest
      { parcelId := some "p1", paymentIntentId := some "pi_1" } 7).db.payments "pi_1" = 1 := by
  have h := confirm_idempotent gwTest dbTest
    { parcelId := some "p1", paymentIntentId := some "pi_1" } 7 piTest "p1" "pi_1"
    rfl (by decide) rfl (by decide) rfl rfl rfl (by decide)
    [] parcelTest [] rfl (by simp) (by decide) (by decide)
  exact ⟨h.1, h.2.2.1, h.2.2.2⟩

/-- Two members of a collection with pairwise-distinct _id (the unique
index on _id) sharing an _id are the same document. -/
theorem mem_id_unique {l : List Parcel}
    (h : l.Pairwise (fun a b => a._id ≠ b._id))
    {p q : Parcel} (hp : p ∈ l) (hq : q ∈ l) (hid : p._id = q._id) : p = q := by
  induction l with
  | nil => cases hp
  | cons a t ih =>
    have h' := List.pairwise_cons.mp h
    rcases List.mem_cons.mp hp with rfl | hp'
    · rcases List.mem_cons.mp hq with rfl | hq'
      · rfl
      · exact absurd hid (h'.1 q hq')
    · rcases List.mem_cons.mp hq with rfl | hq'
      · exact absurd hid.symm (h'.1 p hp')
      · exact ih h'.2 hp' hq'

/-- deleteOne only removes: every surviving document was already there. -/
theorem removeFirstId_subset (l : List Parcel) (i : MongoId) (p' : Parcel)
    (h : p' ∈ removeFirstId l i) : p' ∈ l := by
  induction l with
  | nil => cases h
  | cons a t ih =>
    by_cases ha : (a._id == i) = true
    · simp [removeFirstId, ha] at h
      exact List.mem_cons_of_mem a h
    · have ha' : (a._id == i) = false := by
        cases hb : (a._id == i) with
        | true => exact absurd hb ha
        | false => rfl
      simp [removeFirstId, ha'] at h
      rcases h with rfl | h'
      · exact List.mem_cons_self _ _
      · exact List.mem_cons_of_mem a (ih h')

theorem deleteParcelOp_sub (db : DB) (id : String) (p' : Parcel)
    (h : p' ∈ (deleteParcelOp db id).parcels) : p' ∈ db.parcels := by
  unfold deleteParcelOp at h
  split at h
  · exact removeFirstId_subset _ _ _ h
  · exact h

theorem addTrackingOp_parcels (db : DB) (log : TrackingLog) :
    (addTrackingOp db log).parcels = db.parcels := by
  unfold addTrackingOp
  split <;> rfl

/-- Inversion of the src/server.js validation phase: success means the
gateway returned the intent and its status is the terminal success
value. -/
theorem confirmChecksSJ_ok_inv (gw : Gateway) (b : ConfirmBody) (pi : PaymentIntent)
    (h : confirmChecksSJ gw b = Except.ok pi) :
    gw (b.paymentIntentId.getD "") = GatewayResp.retrieved (some pi) ∧
    pi.status = "succeeded" := by
  unfold confirmChecksSJ at h
  by_cases h1 : (jsFalsy b.parcelId || jsFalsy b.paymentIntentId) = true
  · rw [if_pos h1] at h; cases h
  · rw [if_neg h1] at h
    cases hg : gw (b.paymentIntentId.getD "") with
    | threw m => rw [hg] at h; cases h
    | retrieved o =>
      cases o with
      | none => rw [hg] at h; cases h
      | some pi' =>
        rw [hg] at h
        by_cases hs : pi'.status = "succeeded"
        · simp [hs] at h
          subst h
          exact ⟨rfl, hs⟩
        · simp [hs] at h

/-- Every parcel after a src/server.js confirm is an original document or
the mark-Paid rewrite of an original matching document, the latter only
when the validation phase succeeded. -/
theorem confirmSJ_parcels_mem (gw : Gateway) (db : DB) (b : ConfirmBody) (now : Nat)
    (p' : Parcel) (h : p' ∈ (confirmSJ gw db b now).db.parcels) :
    p' ∈ db.parcels ∨
      ∃ pi q, confirmChecksSJ gw b = Except.ok pi ∧ q ∈ db.parcels ∧
        filterMatches (parcelFilterOf (b.parcelId.getD "")) q._id = true ∧
        p' = markPaid q now := by
  unfold confirmSJ at h
  cases hc : confirmChecksSJ gw b with
  | error r => rw [hc] at h; exact Or.inl h
  | ok pi =>
    rw [hc] at h
    simp only [confirmMutateSJ] at h
    rcases updateFirstMatch_mem _ _ _ _ h with hmem | ⟨q, hq, hqm, rfl⟩
    · exact Or.inl hmem
    · exact Or.inr ⟨pi, q, rfl, hq, hqm, rfl⟩

/-- Parcel-creation operation carrying a client-chosen paymentStatus, as
POST /parcels permits via the spread of req.body. -/
def opCreate : Op :=
  Op.createParcel (MongoId.str "p1") { paymentStatus := some "Refunded" } 0

/-- Confirmation operation for pi_1 on parcel p1. -/
def opConfirm : Op :=
  Op.confirm { parcelId := some "p1", paymentIntentId := some "pi_1" } 7

/-- Counterexample to C8 as stated: POST /parcels accepts an arbitrary
caller-supplied paymentStatus ("Refunded" here, defaulted only when
absent), and a subsequent verified confirm transitions that parcel
"Refunded" to "Paid" — a transition that is not Unpaid to Paid. -/
theorem paymentStatus_transition_cex :
    ((stepOp gwTest { parcels := [], payments := [], tracking := [] } opCreate).parcels.map
      (fun p => p.paymentStatus)) = ["Refunded"] ∧
    ((stepOp gwTest (stepOp gwTest { parcels := [], payments := [], tracking := [] } opCreate)
      opConfirm).parcels.map (fun p => p.paymentStatus)) = ["Paid"] ∧
    "Refunded" ≠ "Unpaid" := by
  refine ⟨?_, ?_, ?_⟩ <;> decide

/-- Claim C8 amended: no operation of the system ever changes a stored parcel's
paymentStatus except a confirm whose payment intent the gateway verified
as succeeded, and such a change always sets the status to "Paid" (hence a
"Paid" status never reverts).  However, since POST /parcels accepts an
arbitrary caller-supplied initial paymentStatus (defaulting to "Unpaid"
only when absent or empty), the pre-change status need not be "Unpaid"
and a parcel may even be created as "Paid" without any verified payment. -/
theorem paymentStatus_update_only_paid (gw : Gateway) (db : DB) (op : Op)
    (huniq : db.parcels.Pairwise (fun a b => a._id ≠ b._id))
    (p p' : Parcel) (hp : p ∈ db.parcels) (hp' : p' ∈ (stepOp gw db op).parcels)
    (hid : p'._id = p._id) (hne : p'.paymentStatus ≠ p.paymentStatus) :
    p'.paymentStatus = "Paid" ∧
    ∃ b now pi, op = Op.confirm b now ∧
      gw (b.paymentIntentId.getD "") = GatewayResp.retrieved (some pi) ∧
      pi.status = "succeeded" := by
  cases op with
  | createParcel nid body cnow =>
    exfalso
    cases hdup : (db.parcels.any (fun x => x._id == nid)) with
    | true =>
      have hp'' : p' ∈ db.parcels := by simpa [stepOp, hdup] using hp'
      exact hne (congrArg Parcel.paymentStatus (mem_id_unique huniq hp'' hp hid))
    | false =>
      have hp'' : p' ∈ db.parcels ++ [mkNewParcel nid body cnow] := by
        simpa [stepOp, hdup] using hp'
      rcases List.mem_append.mp hp'' with hmem | hnew
      · exact hne (congrArg Parcel.paymentStatus (mem_id_unique huniq hmem hp hid))
      · have hidn : p'._id = nid := by
          rcases List.mem_singleton.mp hnew with rfl; rfl
        have hpn : p._id = nid := by rw [← hid]; exact hidn
        have hany : db.parcels.any (fun x => x._id == nid) = true :=
          List.any_eq_true.mpr ⟨p, hp, by simp [hpn]⟩
        rw [hdup] at hany
        exact Bool.noConfusion hany
  | deleteParcel id =>
    exfalso
    have hp'' : p' ∈ db.parcels := deleteParcelOp_sub db id p' hp'
    exact hne (congrArg Parcel.paymentStatus (mem_id_unique huniq hp'' hp hid))
  | addTracking log =>
    exfalso
    rw [show stepOp gw db (Op.addTracking log) = addTrackingOp db log from rfl,
      addTrackingOp_parcels] at hp'
    exact hne (congrArg Parcel.paymentStatus (mem_id_unique huniq hp' hp hid))
  | confirm cb cnow =>
    rcases confirmSJ_parcels_mem gw db cb cnow p' hp' with hmem | ⟨pi, q, hok, hqmem, hqm, rfl⟩
    · exact absurd (congrArg Parcel.paymentStatus (mem_id_unique huniq hmem hp hid)) hne
    · have hinv := confirmChecksSJ_ok_inv gw cb pi hok
      exact ⟨rfl, cb, cnow, pi, rfl, hinv.1, hinv.2⟩

/-- Witness for the amended C8: the confirm of pi_1 changes parcel p1 from
Unpaid to Paid, and the theorem pins the operation down as a
gateway-verified succeeded confirm. -/
theorem paymentStatus_update_only_paid_witness :
    (markPaid parcelTest 7).paymentStatus = "Paid" ∧
    ∃ b now pi, opConfirm = Op.confirm b now ∧
      gwTest (b.paymentIntentId.getD "") = GatewayResp.retrieved (some pi) ∧
      pi.status = "succeeded" :=
  paymentStatus_update_only_paid gwTest dbTest opConfirm (by simp [dbTest])
    parcelTest (markPaid parcelTest 7) (by decide) (by decide) rfl (by decide)
